import Mathlib

/-
  Verification development for the homework status bot (homework.py).
  The Python source is shallowly embedded: decoded JSON payloads become
  the inductive type JVal, Python exceptions become the inductive type
  PyExc, fallible functions return Except, and one iteration of the
  endless poll loop in main becomes the pure state transformer runCycle
  on LoopState.  Python string formatting is reproduced character for
  character where the resulting message text is observable (it feeds the
  duplicate-error suppression in the loop).
-/

namespace HomeworkBot

/-- A decoded JSON value, the shape of response.json() payloads. -/
inductive JVal where
  | null
  | bool (b : Bool)
  | num (n : Int)
  | str (s : String)
  | list (xs : List JVal)
  | obj (fields : List (String × JVal))

/-- Python exceptions raised by the script, tagged by class, carrying the
argument they were constructed with. -/
inductive PyExc where
  | exc (msg : String)
  | requestFailed (msg : String)
  | typeError (msg : String)
  | keyError (msg : String)
  | attrError (msg : String)
  | indexError (msg : String)
deriving DecidableEq

/-- str(exception) as Python computes it: the message for most classes,
but KeyError renders the repr of its argument, which wraps a string
argument in single quotes. -/
def excStr : PyExc → String
  | .exc m => m
  | .requestFailed m => m
  | .typeError m => m
  | .keyError m => "\x27" ++ m ++ "\x27"
  | .attrError m => m
  | .indexError m => m

mutual

/-- repr(value) for decoded JSON values, as Python renders them inside
format strings. -/
def pyRepr : JVal → String
  | .null => "None"
  | .bool true => "True"
  | .bool false => "False"
  | .num n => toString n
  | .str s => "\x27" ++ s ++ "\x27"
  | .list xs => "[" ++ pyReprList xs ++ "]"
  | .obj fs => "\x7b" ++ pyReprFields fs ++ "\x7d"

/-- Comma-separated reprs of the elements of a list value. -/
def pyReprList : List JVal → String
  | [] => ""
  | [x] => pyRepr x
  | x :: y :: rest => pyRepr x ++ ", " ++ pyReprList (y :: rest)

/-- Comma-separated key: value reprs of the entries of a dict value. -/
def pyReprFields : List (String × JVal) → String
  | [] => ""
  | [(k, v)] => "\x27" ++ k ++ "\x27: " ++ pyRepr v
  | (k, v) :: y :: rest =>
    "\x27" ++ k ++ "\x27: " ++ pyRepr v ++ ", " ++ pyReprFields (y :: rest)

end

/-- str(value): like repr, except a string renders without quotes. -/
def pyStr (v : JVal) : String :=
  match v with
  | .str s => s
  | other => pyRepr other

/-- str(value) extended to a possibly-missing value, str(None) = "None". -/
def pyStrOpt : Option JVal → String
  | none => "None"
  | some v => pyStr v

/-- repr(type(value)) as used in the API_RESPONSE_ERROR format slot. -/
def typeName : JVal → String
  | .null => "<class \x27NoneType\x27>"
  | .bool _ => "<class \x27bool\x27>"
  | .num _ => "<class \x27int\x27>"
  | .str _ => "<class \x27str\x27>"
  | .list _ => "<class \x27list\x27>"
  | .obj _ => "<class \x27dict\x27>"

/-- The bare Python type name, used in TypeError diagnostics. -/
def typeShort : JVal → String
  | .null => "NoneType"
  | .bool _ => "bool"
  | .num _ => "int"
  | .str _ => "str"
  | .list _ => "list"
  | .obj _ => "dict"

/-- dict.get(k) / k in dict: first binding of the key, if any. -/
def dictGet (k : String) (fs : List (String × JVal)) : Option JVal :=
  match fs.find? (fun p => p.1 == k) with
  | some p => some p.2
  | none => none

/-- Python truthiness of a decoded JSON value. -/
def pyTruthyVal : JVal → Bool
  | .null => false
  | .bool b => b
  | .num n => n != 0
  | .str s => s != ""
  | .list xs => !xs.isEmpty
  | .obj fs => !fs.isEmpty

/-- Python a or b on possibly-missing values: a when truthy, else b. -/
def pyOrVal (a b : Option JVal) : Option JVal :=
  match a with
  | some v => if pyTruthyVal v then some v else b
  | none => b

/-- Python truthiness of an optional environment string: None and the
empty string are falsy. -/
def pyTruthyOptStr : Option String → Bool
  | none => false
  | some s => s != ""

/-- Python a or b on optional environment strings. -/
def pyOrStr (a b : Option String) : Option String :=
  if pyTruthyOptStr a then a else b

/-- Substring membership, Python needle in haystack for strings. -/
def strContains (needle hay : String) : Bool :=
  (hay.splitOn needle).length ≥ 2

/-- ENDPOINT constant of homework.py. -/
def ENDPOINT : String :=
  "https://practicum.yandex.ru/api/user_api/homework_statuses/"

/-- repr(HEADERS) where HEADERS = a dict with the OAuth authorization
line built from PRACTICUM_TOKEN. -/
def headersRepr (token : String) : String :=
  "\x7b\x27Authorization\x27: \x27OAuth " ++ token ++ "\x27\x7d"

/-- repr(params) where params = a dict with the from_date cursor. -/
def paramsRepr (ts : Int) : String :=
  "\x7b\x27from_date\x27: " ++ toString ts ++ "\x7d"

/-- API_ANSWER_ERROR template, fully formatted. -/
def API_ANSWER_ERROR (token : String) (ts : Int) (err : String) : String :=
  "Ошибка при запросе к " ++ ENDPOINT ++ " с авторизацией "
    ++ headersRepr token ++ " и параметрами " ++ paramsRepr ts
    ++ ": " ++ err ++ "."

/-- ERROR_MESSAGE template, fully formatted. -/
def ERROR_MESSAGE (err : String) : String :=
  "Сбой в работе программы: " ++ err ++ "."

/-- API_RESPONSE_ERROR template, fully formatted. -/
def API_RESPONSE_ERROR (err : String) : String :=
  "Формат ответа API отличается от ожидаемого. " ++ err

/-- RESPONSE_KEY_ERROR constant. -/
def RESPONSE_KEY_ERROR : String :=
  "Ответ API не содержит ключ \"homeworks\"."

/-- WRONG_STATUS_ERROR template, fully formatted. -/
def WRONG_STATUS_ERROR (hname status : String) : String :=
  "Недокументированный статус домашней работы " ++ hname ++ ": "
    ++ status ++ "."

/-- STATUS_VERDICT template, fully formatted. -/
def STATUS_VERDICT (hname verdict : String) : String :=
  "Изменился статус проверки работы \"" ++ hname ++ "\". " ++ verdict

/-- The VERDICTS status catalog as a lookup from status code to verdict. -/
def VERDICTS : String → Option String
  | "approved" => some ("Работа проверена: ревьюеру всё понравилось. Ура!")
  | "reviewing" => some ("Работа взята на проверку ревьюером.")
  | "rejected" => some ("Работа проверена: у ревьюера есть замечания.")
  | _ => none

/-- The message of the TypeError raised by calling dict.get with the
keyword argument default, as main does on its cursor-update line. -/
def getKwMsg : String := "get() takes no keyword arguments"

/-- What the HTTP transport did for one request: failed below HTTP, or
delivered a status code and a decoded JSON body. -/
inductive HttpOutcome where
  | transportError (cause : String)
  | response (statusCode : Nat) (body : JVal)

/-- send_message: wraps the underlying delivery call in try/except;
returns True on the success path, and falls off the end (None) when the
delivery raised, so no exception ever propagates to the caller. -/
def send_message (delivery : Except PyExc Unit) : Option Bool :=
  match delivery with
  | .ok _ => some true
  | .error _ => none

/-- get_api_answer: one HTTP GET with the from_date cursor.  A transport
failure and a non-200 status raise.  On a 200 response the body check on
the source line `if (\x27error\x27 or \x27code\x27) in result` evaluates
the parenthesised or first, which yields the string error, so only the
key error is tested; a body carrying only a code key passes through.
When the test fires, the raised message embeds
result.get(\x27error\x27) or result.get(\x27code\x27); on a non-dict
body the in test follows Python membership semantics and the subsequent
.get would raise AttributeError. -/
def get_api_answer (token : String) (ts : Int) (http : HttpOutcome) :
    Except PyExc JVal :=
  match http with
  | .transportError cause => .error (.exc (API_ANSWER_ERROR token ts cause))
  | .response statusCode body =>
    if statusCode ≠ 200 then
      .error (.requestFailed (API_ANSWER_ERROR token ts (toString statusCode)))
    else
      match body with
      | .obj fs =>
        if fs.any (fun p => p.1 == "error") then
          .error (.exc (API_ANSWER_ERROR token ts
            (pyStrOpt (pyOrVal (dictGet ("error") fs) (dictGet ("code") fs)))))
        else .ok body
      | .list xs =>
        if xs.any (fun v => match v with | .str s => s == "error" | _ => false) then
          .error (.attrError ("\x27list\x27 object has no attribute \x27get\x27"))
        else .ok body
      | .str s =>
        if strContains ("error") s then
          .error (.attrError ("\x27str\x27 object has no attribute \x27get\x27"))
        else .ok body
      | other =>
        .error (.typeError ("argument of type \x27" ++ typeShort other
          ++ "\x27 is not iterable"))

/-- check_response: rejects a non-dict response, rejects a dict without
the homeworks key, rejects a non-list homeworks value, returns None for
an empty list and the list itself otherwise. -/
def check_response (response : JVal) : Except PyExc (Option (List JVal)) :=
  match response with
  | .obj fs =>
    match dictGet ("homeworks") fs with
    | none => .error (.keyError (RESPONSE_KEY_ERROR))
    | some hv =>
      match hv with
      | .list xs => if xs.isEmpty then .ok none else .ok (some xs)
      | other => .error (.typeError (API_RESPONSE_ERROR (typeName other)))
  | other => .error (.typeError (API_RESPONSE_ERROR (typeName other)))

/-- parse_status: subscripts homework_name and status (KeyError when a
key is missing, TypeError when the item is not a dict), rejects a status
outside the VERDICTS catalog, and renders the STATUS_VERDICT message.
A list or dict status would make the catalog membership test raise
TypeError (unhashable); any other non-string status is simply not a
catalog key. -/
def parse_status (homework : JVal) : Except PyExc String :=
  match homework with
  | .obj fs =>
    match dictGet ("homework_name") fs with
    | none => .error (.keyError ("homework_name"))
    | some hname =>
      match dictGet ("status") fs with
      | none => .error (.keyError ("status"))
      | some status =>
        match status with
        | .str s =>
          match VERDICTS s with
          | some verdict => .ok (STATUS_VERDICT (pyStr hname) verdict)
          | none =>
            .error (.keyError (WRONG_STATUS_ERROR (pyStr hname) s))
        | .list _ => .error (.typeError ("unhashable type: \x27list\x27"))
        | .obj _ => .error (.typeError ("unhashable type: \x27dict\x27"))
        | other =>
          .error (.keyError (WRONG_STATUS_ERROR (pyStr hname) (pyStr other)))
  | other =>
    .error (.typeError (typeShort other ++ " is not subscriptable by str"))

/-- check_tokens: logs each missing secret, but its return value tests
only `(PRACTICUM_TOKEN or TELEGRAM_TOKEN or TELEGRAM_CHAT_ID) is None`,
which is None exactly when the first two are falsy and the third is
None. -/
def check_tokens (p t c : Option String) : Bool :=
  match pyOrStr (pyOrStr p t) c with
  | none => false
  | some _ => true

/-- How a run of main begins: either the process exits before the loop
(sys.exit() with no argument exits with status code 0), or the endless
poll loop is entered. -/
inductive StartOutcome where
  | exited (exitCode : Nat)
  | entersLoop
deriving DecidableEq

/-- The startup phase of main: sys.exit() when check_tokens is False,
otherwise the loop is entered. -/
def mainStartup (p t c : Option String) : StartOutcome :=
  if check_tokens p t c = false then .exited 0 else .entersLoop

/-- The mutable state main threads through the loop: the poll cursor and
the last-notified-error slot (the errors variable, initialised to ""). -/
structure LoopState where
  current_timestamp : Int
  errors : String
deriving DecidableEq

/-- Observable outcome of one loop iteration: the new state, whether a
status notification send was attempted, and whether an error
notification send was attempted. -/
structure CycleResult where
  state : LoopState
  statusSendAttempted : Bool
  errorSendAttempted : Bool
deriving DecidableEq

/-- The try block of one loop iteration: fetch, validate, format, send
the status message for the first item, then update the cursor.  Returns
whether the status send was attempted, and either the new cursor value
or the exception that escaped the block.  The cursor-update line calls
response.get with the keyword argument default, which dict.get rejects,
so every iteration that reaches it raises TypeError after the send. -/
def tryPhase (token : String) (ts : Int) (http : HttpOutcome) :
    Bool × Except PyExc Int :=
  match get_api_answer token ts http with
  | .error e => (false, .error e)
  | .ok response =>
    match check_response response with
    | .error e => (false, .error e)
    | .ok none => (false, .ok ts)
    | .ok (some homeworks) =>
      match homeworks with
      | [] => (false, .error (.indexError ("list index out of range")))
      | homework :: _ =>
        match parse_status homework with
        | .error e => (false, .error e)
        | .ok _text => (true, .error (.typeError (getKwMsg)))

/-- One full iteration of the while loop in main.  On an exception the
handler formats ERROR_MESSAGE, compares it with the errors slot, and
when it differs attempts the send and then — under the source line
`if True:` — stores the message in the slot whether or not the delivery
succeeded.  The delivery outcomes are parameters, and the iteration
ignores them exactly as the source discards the send_message results. -/
def runCycle (token : String) (st : LoopState) (http : HttpOutcome)
    (_sendStatusOk _sendErrorOk : Bool) : CycleResult :=
  match tryPhase token st.current_timestamp http with
  | (sent, .ok newTs) => ⟨⟨newTs, st.errors⟩, sent, false⟩
  | (sent, .error e) =>
    let message := ERROR_MESSAGE (excStr e)
    if message = st.errors then
      ⟨⟨st.current_timestamp, st.errors⟩, sent, false⟩
    else
      ⟨⟨st.current_timestamp, message⟩, sent, true⟩

/-- Iterate runCycle n times against a fixed transport outcome and fixed
delivery outcomes, returning the final state and the number of
iterations that attempted an error notification send. -/
def runCyclesCount (token : String) (st : LoopState) (http : HttpOutcome)
    (sendStatusOk sendErrorOk : Bool) : Nat → LoopState × Nat
  | 0 => (st, 0)
  | n + 1 =>
    let r := runCycle token st http sendStatusOk sendErrorOk
    let rest := runCyclesCount token r.state http sendStatusOk sendErrorOk n
    (rest.1, rest.2 + (if r.errorSendAttempted then 1 else 0))

/-- A concrete work item: homework hw1 in the approved state. -/
def exampleItem : JVal :=
  .obj [("homework_name", .str ("hw1")), ("status", .str ("approved"))]

/-- The scenario response: one work item and current_date = 1000. -/
def exampleResp : JVal :=
  .obj [("homeworks", .list [exampleItem]), ("current_date", .num 1000)]

/-- The status send flag of a cycle equals the first component of its
try phase: a status send is attempted exactly when the try block got as
far as a formatted message. -/
theorem runCycle_statusSend (token : String) (st : LoopState)
    (http : HttpOutcome) (sOk eOk : Bool) :
    (runCycle token st http sOk eOk).statusSendAttempted
      = (tryPhase token st.current_timestamp http).1 := by
  unfold runCycle
  rcases htp : tryPhase token st.current_timestamp http with ⟨b, r⟩
  cases r with
  | ok v => rfl
  | error e =>
    dsimp only
    split <;> rfl

/-- When the try phase reports an attempted status send, the exception
it escaped with is the TypeError from the keyword-argument dict.get on
the cursor-update line. -/
theorem tryPhase_fst_true (token : String) (ts : Int) (http : HttpOutcome)
    (h : (tryPhase token ts http).1 = true) :
    tryPhase token ts http = (true, .error (.typeError (getKwMsg))) := by
  unfold tryPhase at h ⊢
  repeat' split at h
  all_goals simp_all

/-- Shape of a cycle whose try phase raised: the handler keeps the
cursor, and either suppresses (message equals the slot) or sends and
stores the message. -/
theorem runCycle_error (token : String) (st : LoopState) (http : HttpOutcome)
    (sOk eOk b : Bool) (e : PyExc)
    (h : tryPhase token st.current_timestamp http = (b, .error e)) :
    runCycle token st http sOk eOk
      = if ERROR_MESSAGE (excStr e) = st.errors then
          ⟨⟨st.current_timestamp, st.errors⟩, b, false⟩
        else
          ⟨⟨st.current_timestamp, ERROR_MESSAGE (excStr e)⟩, b, true⟩ := by
  unfold runCycle
  rw [h]

/-- Once the slot holds the message of the failure that the fixed
transport outcome keeps producing, any number of further cycles leaves
the state unchanged and attempts no error send. -/
theorem runCyclesCount_stable (token : String) (ts : Int)
    (http : HttpOutcome) (b : Bool) (e : PyExc) (sOk eOk : Bool)
    (h : tryPhase token ts http = (b, .error e)) (n : Nat) :
    runCyclesCount token ⟨ts, ERROR_MESSAGE (excStr e)⟩ http sOk eOk n
      = (⟨ts, ERROR_MESSAGE (excStr e)⟩, 0) := by
  induction n with
  | zero => rfl
  | succ n ih =>
    have hr : runCycle token ⟨ts, ERROR_MESSAGE (excStr e)⟩ http sOk eOk
        = ⟨⟨ts, ERROR_MESSAGE (excStr e)⟩, b, false⟩ := by
      rw [runCycle_error token ⟨ts, ERROR_MESSAGE (excStr e)⟩ http sOk eOk b e h]
      rw [if_pos rfl]
    simp [runCyclesCount, hr, ih]

/-- Claim C1 (evaluation at the failing input): a cycle whose 200
response carries one approved work item and current_date = 1000, run
from cursor 500 with an empty error slot and successful deliveries,
sends the status notification but then hits the TypeError raised by
response.get with the keyword argument default, so the handler also
attempts an error notification, the error slot receives the TypeError
diagnostic, and the cursor stays 500 instead of advancing to 1000. -/
theorem c1_success_cycle_raises_and_keeps_cursor :
    runCycle ("T") ⟨500, ""⟩ (.response 200 exampleResp) true true
      = ⟨⟨500, ERROR_MESSAGE (excStr (.typeError (getKwMsg)))⟩, true, true⟩
    ∧ (runCycle ("T") ⟨500, ""⟩ (.response 200 exampleResp) true true).state.current_timestamp
      ≠ 1000 :=
  ⟨rfl, by decide⟩

/-- Claim C2 (evaluation at the failing input): with PRACTICUM_TOKEN and
TELEGRAM_TOKEN present and TELEGRAM_CHAT_ID absent, check_tokens returns
True because `(a or b or c) is None` only inspects the first truthy
operand, so main enters the poll loop instead of exiting. -/
theorem c2_missing_chat_id_still_enters_loop :
    check_tokens (some ("x")) (some ("y")) none = true
    ∧ mainStartup (some ("x")) (some ("y")) none = .entersLoop :=
  ⟨rfl, rfl⟩

/-- Claim C3 (evaluation at the failing input): a cycle failing with
HTTP 503 from an empty error slot attempts the error notification, and
because the update is guarded by the source line `if True:` rather than
by the send result, the slot receives the message even though delivery
failed; the whole cycle result is identical whether the delivery
succeeds or fails. -/
theorem c3_slot_updated_although_send_failed :
    (runCycle ("T") ⟨500, ""⟩ (.response 503 (.obj [])) true false).errorSendAttempted
      = true
    ∧ (runCycle ("T") ⟨500, ""⟩ (.response 503 (.obj [])) true false).state.errors
      = ERROR_MESSAGE (API_ANSWER_ERROR ("T") 500 ("503"))
    ∧ runCycle ("T") ⟨500, ""⟩ (.response 503 (.obj [])) true false
      = runCycle ("T") ⟨500, ""⟩ (.response 503 (.obj [])) true true :=
  ⟨rfl, rfl, rfl⟩

/-- Claim C4 (counterexample): a cycle that attempts the status
notification leaves the Last-Notified-Error slot non-empty, so the slot
is not cleared on a successful notification cycle. -/
theorem c4_success_cycle_slot_not_cleared :
    (runCycle ("T") ⟨500, "prev"⟩ (.response 200 exampleResp) true true).statusSendAttempted
      = true
    ∧ (runCycle ("T") ⟨500, "prev"⟩ (.response 200 exampleResp) true true).state.errors
      ≠ "" :=
  ⟨rfl, by decide⟩

/-- Claim C4 (amended): a poll cycle that attempts a status notification
never clears the Last-Notified-Error slot; instead the slot ends the
cycle holding the diagnostic message of the TypeError that the
cursor-update line raises after the send. -/
theorem c4_status_send_sets_slot_to_get_typeerror (token : String)
    (st : LoopState) (http : HttpOutcome) (sOk eOk : Bool)
    (h : (runCycle token st http sOk eOk).statusSendAttempted = true) :
    (runCycle token st http sOk eOk).state.errors
      = ERROR_MESSAGE (excStr (.typeError (getKwMsg))) := by
  have h1 : (tryPhase token st.current_timestamp http).1 = true := by
    rw [← runCycle_statusSend token st http sOk eOk]
    exact h
  have h2 := tryPhase_fst_true token st.current_timestamp http h1
  rw [runCycle_error token st http sOk eOk true (.typeError (getKwMsg)) h2]
  split
  · rename_i heq
    exact heq.symm
  · rfl

/-- Witness for the amended claim C4 at the scenario input. -/
theorem c4_status_send_sets_slot_witness :
    (runCycle ("T") ⟨500, ""⟩ (.response 200 exampleResp) true true).statusSendAttempted
      = true
    ∧ (runCycle ("T") ⟨500, ""⟩ (.response 200 exampleResp) true true).state.errors
      = ERROR_MESSAGE (excStr (.typeError (getKwMsg))) :=
  ⟨rfl, c4_status_send_sets_slot_to_get_typeerror ("T") ⟨500, ""⟩
    (.response 200 exampleResp) true true rfl⟩

/-- Claim C5 (evaluation at the failing input): a 200 response whose
body carries only a code field is returned as a valid payload, because
the source guard `(\x27error\x27 or \x27code\x27) in result` tests only
the error key; a body with an error field is rejected as the spec
describes. -/
theorem c5_code_only_body_is_returned :
    get_api_answer ("T") 0 (.response 200 (.obj [("code", .str ("not_found"))]))
      = .ok (.obj [("code", .str ("not_found"))])
    ∧ get_api_answer ("T") 0 (.response 200 (.obj [("error", .str ("bad"))]))
      = .error (.exc (API_ANSWER_ERROR ("T") 0 ("bad"))) :=
  ⟨rfl, rfl⟩

/-- Claim C6: starting a failure streak (the fixed transport outcome
makes the try phase raise a message different from the slot), the first
cycle attempts the error notification, and a streak of any further
length attempts no additional error sends: the total over the whole
streak is exactly one. -/
theorem c6_identical_failure_streak_sends_once (token : String)
    (st : LoopState) (http : HttpOutcome) (b : Bool) (e : PyExc)
    (sOk eOk : Bool) (n : Nat)
    (h1 : tryPhase token st.current_timestamp http = (b, .error e))
    (h2 : st.errors ≠ ERROR_MESSAGE (excStr e)) :
    (runCycle token st http sOk eOk).errorSendAttempted = true
    ∧ (runCyclesCount token st http sOk eOk (n + 1)).2 = 1 := by
  have hr : runCycle token st http sOk eOk
      = ⟨⟨st.current_timestamp, ERROR_MESSAGE (excStr e)⟩, b, true⟩ := by
    rw [runCycle_error token st http sOk eOk b e h1]
    rw [if_neg (fun heq => h2 heq.symm)]
  constructor
  · rw [hr]
  · simp [runCyclesCount, hr,
      runCyclesCount_stable token st.current_timestamp http b e sOk eOk h1 n]

/-- Witness for claim C6: two consecutive 503 cycles from a fresh slot
attempt exactly one error notification. -/
theorem c6_identical_failure_streak_witness :
    (runCycle ("T") ⟨500, ""⟩ (.response 503 (.obj [])) true true).errorSendAttempted
      = true
    ∧ (runCyclesCount ("T") ⟨500, ""⟩ (.response 503 (.obj [])) true true 2).2 = 1 :=
  c6_identical_failure_streak_sends_once ("T") ⟨500, ""⟩ (.response 503 (.obj []))
    false (.requestFailed (API_ANSWER_ERROR ("T") 500 ("503"))) true true 1
    rfl (by decide)

/-- Claim C7 (counterexample): with all three secrets absent the startup
validation fails, and the process exits through sys.exit() with no
argument, which terminates with exit code 0, not a non-zero code. -/
theorem c7_validation_failure_exits_with_code_zero :
    check_tokens none none none = false
    ∧ mainStartup none none none = .exited 0 :=
  ⟨rfl, rfl⟩

/-- Claim C7 (amended): whenever startup validation fails, the process
exits before the loop, but with exit code 0 (sys.exit() is called with
no argument). -/
theorem c7_validation_failure_exit_code (p t c : Option String)
    (h : check_tokens p t c = false) : mainStartup p t c = .exited 0 := by
  unfold mainStartup
  rw [if_pos h]

/-- Witness for the amended claim C7. -/
theorem c7_validation_failure_exit_code_witness :
    check_tokens none none none = false
    ∧ mainStartup none none none = .exited 0 :=
  ⟨rfl, c7_validation_failure_exit_code none none none rfl⟩

/-- Claim C8: the case analysis of check_response on a mapping response:
an empty homeworks list yields None without error, a missing homeworks
key raises KeyError, and a non-empty homeworks list is returned exactly
as it is, order preserved. -/
theorem c8_check_response_cases (fs : List (String × JVal)) :
    (dictGet ("homeworks") fs = some (.list []) → check_response (.obj fs) = .ok none)
    ∧ (dictGet ("homeworks") fs = none
        → check_response (.obj fs) = .error (.keyError (RESPONSE_KEY_ERROR)))
    ∧ (∀ xs, xs ≠ [] → dictGet ("homeworks") fs = some (.list xs)
        → check_response (.obj fs) = .ok (some xs)) := by
  refine ⟨fun h => ?_, fun h => ?_, fun xs hne h => ?_⟩
  · simp only [check_response]
    rw [h]
    rfl
  · simp only [check_response]
    rw [h]
  · simp only [check_response]
    rw [h]
    cases xs with
    | nil => exact absurd rfl hne
    | cons a l => rfl

/-- Witness for claim C8 on three concrete responses. -/
theorem c8_check_response_cases_witness :
    check_response (.obj [("homeworks", .list [])]) = .ok none
    ∧ check_response (.obj []) = .error (.keyError (RESPONSE_KEY_ERROR))
    ∧ check_response (.obj [("homeworks", .list [exampleItem])])
      = .ok (some [exampleItem]) :=
  ⟨(c8_check_response_cases [("homeworks", .list [])]).1 rfl,
   (c8_check_response_cases []).2.1 rfl,
   (c8_check_response_cases [("homeworks", .list [exampleItem])]).2.2
     [exampleItem] (by simp) rfl⟩

/-- Claim C9: a work item with both fields present and a catalog status
is rendered to the status-change message, which carries the work name
between the quotes and ends with the exact catalog verdict text. -/
theorem c9_parse_status_renders_catalog_verdict (fs : List (String × JVal))
    (name status verdict : String)
    (h1 : dictGet ("homework_name") fs = some (.str name))
    (h2 : dictGet ("status") fs = some (.str status))
    (h3 : VERDICTS status = some verdict) :
    parse_status (.obj fs)
      = .ok ("Изменился статус проверки работы \"" ++ name ++ "\". " ++ verdict) := by
  simp only [parse_status]
  rw [h1]
  dsimp only
  rw [h2]
  dsimp only
  rw [h3]
  rfl

/-- Witness for claim C9 at the approved example item. -/
theorem c9_parse_status_witness :
    parse_status exampleItem
      = .ok ("Изменился статус проверки работы \"" ++ "hw1" ++ "\". "
          ++ "Работа проверена: ревьюеру всё понравилось. Ура!") :=
  c9_parse_status_renders_catalog_verdict
    [("homework_name", .str ("hw1")), ("status", .str ("approved"))]
    ("hw1") ("approved") ("Работа проверена: ревьюеру всё понравилось. Ура!")
    rfl rfl rfl

/-- Claim C10: send_message is a total function of the delivery outcome:
it returns True exactly on delivered calls, None (never False) on failed
ones, and — being total over every delivery outcome, the raising ones
included — propagates no exception to its caller. -/
theorem c10_send_message_true_or_none (r : Except PyExc Unit) :
    (send_message r = some true ↔ ∃ u, r = .ok u)
    ∧ (send_message r = none ↔ ∃ e, r = .error e)
    ∧ send_message r ≠ some false := by
  cases r <;> simp [send_message]

end HomeworkBot
